import Mathlib

/-!
# Verification of the webrana-ai-proxy core against its design spec

Shallow embedding of the Rust backend's core components
(provider routing, format transformers, streaming normalization,
rate limiting, usage metering) as executable Lean definitions,
together with theorems settling the spec's claims about them.

Rust strings are modelled as `List Char` where prefix/substring
reasoning is needed and as `String` elsewhere; `i32`/`i64` are
modelled as `Int` (no arithmetic here comes near the width bounds);
ambient effects (`Utc::now()`, `Uuid::new_v4()`) are passed in as
explicit arguments.
-/

/-- Model of Rust `str::starts_with` over `List Char`. -/
def strStartsWith : List Char → List Char → Bool
  | _, [] => true
  | [], _ :: _ => false
  | c :: cs, p :: ps => c = p && strStartsWith cs ps

/-- Model of Rust `str::contains` (substring search) over `List Char`. -/
def strContains (s pat : List Char) : Bool :=
  (List.range (s.length + 1)).any (fun i => strStartsWith (s.drop i) pat)

/-- Two patterns with different head characters cannot both be prefixes
of the same string. -/
theorem strStartsWith_disjoint {m pa pb : List Char} {a b : Char}
    (hab : a ≠ b)
    (ha : strStartsWith m (a :: pa) = true)
    (hb : strStartsWith m (b :: pb) = true) : False := by
  cases m with
  | nil => simp [strStartsWith] at ha
  | cons c cs =>
    simp [strStartsWith] at ha hb
    exact hab (ha.1 ▸ hb.1 ▸ rfl)

/-- `src/backend/src/services/transformers/mod.rs`: the `Provider` enum. -/
inductive Provider where
  | OpenAI
  | Anthropic
  | Google
  | Qwen
  deriving DecidableEq, Repr

/-- The literal `"gpt-"` from `Provider::from_model`. -/
def pfxGpt : List Char := "gpt-".toList

/-- The literal `"o1-"` from `Provider::from_model`. -/
def pfxO1 : List Char := "o1-".toList

/-- The literal `"claude-"` from `Provider::from_model`. -/
def pfxClaude : List Char := "claude-".toList

/-- The literal `"gemini-"` from `Provider::from_model`. -/
def pfxGemini : List Char := "gemini-".toList

/-- The literal `"qwen-"` from `Provider::from_model`. -/
def pfxQwen : List Char := "qwen-".toList

/-- The literal `"qwen2-"` from `Provider::from_model`. -/
def pfxQwen2 : List Char := "qwen2-".toList

/-- `Provider::from_model` (transformers/mod.rs lines 82-94):
prefix-based provider routing. -/
def Provider.from_model (model : List Char) : Option Provider :=
  if strStartsWith model pfxGpt || strStartsWith model pfxO1 then
    some Provider.OpenAI
  else if strStartsWith model pfxClaude then
    some Provider.Anthropic
  else if strStartsWith model pfxGemini then
    some Provider.Google
  else if strStartsWith model pfxQwen || strStartsWith model pfxQwen2 then
    some Provider.Qwen
  else
    none

/-- `src/backend/src/services/billing_service.rs`: the `PlanTier` enum. -/
inductive PlanTier where
  | Free
  | Starter
  | Pro
  | Team
  deriving DecidableEq, Repr

/-- `PlanTier::request_limit` (billing_service.rs lines 29-36). -/
def PlanTier.request_limit : PlanTier → Int
  | PlanTier.Free => 1000
  | PlanTier.Starter => 10000
  | PlanTier.Pro => 50000
  | PlanTier.Team => 200000

/-- `src/backend/src/services/usage_logger.rs`: `ProviderPricing`
(per-million-token prices in IDR). -/
structure ProviderPricing where
  input_per_million : Int
  output_per_million : Int
  deriving DecidableEq, Repr

/-- `ProviderPricing::openai_pricing` (usage_logger.rs lines 49-63). -/
def ProviderPricing.openai_pricing (model : List Char) : ProviderPricing :=
  if strContains model "gpt-4-turbo".toList || strContains model "gpt-4o".toList then
    { input_per_million := 155000, output_per_million := 465000 }
  else if strStartsWith model "gpt-4".toList then
    { input_per_million := 465000, output_per_million := 930000 }
  else if strStartsWith model "o1".toList then
    { input_per_million := 232500, output_per_million := 930000 }
  else
    { input_per_million := 7750, output_per_million := 23250 }

/-- `ProviderPricing::anthropic_pricing` (usage_logger.rs lines 65-77). -/
def ProviderPricing.anthropic_pricing (model : List Char) : ProviderPricing :=
  if strContains model "opus".toList then
    { input_per_million := 232500, output_per_million := 1162500 }
  else if strContains model "sonnet".toList then
    { input_per_million := 46500, output_per_million := 232500 }
  else
    { input_per_million := 3875, output_per_million := 19375 }

/-- `ProviderPricing::google_pricing` (usage_logger.rs lines 79-88). -/
def ProviderPricing.google_pricing (model : List Char) : ProviderPricing :=
  if strContains model "flash".toList then
    { input_per_million := 1163, output_per_million := 4650 }
  else
    { input_per_million := 54250, output_per_million := 162750 }

/-- `ProviderPricing::qwen_pricing` (usage_logger.rs lines 90-103). -/
def ProviderPricing.qwen_pricing (model : List Char) : ProviderPricing :=
  if strContains model "max".toList then
    { input_per_million := 31000, output_per_million := 93000 }
  else if strContains model "plus".toList then
    { input_per_million := 7750, output_per_million := 23250 }
  else
    { input_per_million := 1550, output_per_million := 4650 }

/-- `ProviderPricing::for_model` (usage_logger.rs lines 40-47). -/
def ProviderPricing.for_model (provider : Provider) (model : List Char) : ProviderPricing :=
  match provider with
  | Provider.OpenAI => ProviderPricing.openai_pricing model
  | Provider.Anthropic => ProviderPricing.anthropic_pricing model
  | Provider.Google => ProviderPricing.google_pricing model
  | Provider.Qwen => ProviderPricing.qwen_pricing model

/-- `UsageLogger::calculate_cost` (usage_logger.rs lines 174-186).
Rust `i64` division truncates toward zero, which is `Int.tdiv`. -/
def UsageLogger.calculate_cost (provider : Provider) (model : List Char)
    (prompt_tokens completion_tokens : Int) : Int :=
  let pricing := ProviderPricing.for_model provider model
  let input_cost := Int.tdiv (prompt_tokens * pricing.input_per_million) 1000000
  let output_cost := Int.tdiv (completion_tokens * pricing.output_per_million) 1000000
  input_cost + output_cost

example : UsageLogger.calculate_cost Provider.OpenAI "gpt-4".toList 1000000 0 = 465000 := by
  decide

example : Provider.from_model "qwen2-7b".toList = some Provider.Qwen := by decide

example : Provider.from_model "llama-3".toList = none := by decide

/-- Every entry of the static price table is strictly positive. -/
theorem ProviderPricing.for_model_pos (provider : Provider) (model : List Char) :
    0 < (ProviderPricing.for_model provider model).input_per_million ∧
    0 < (ProviderPricing.for_model provider model).output_per_million := by
  cases provider <;>
    simp only [ProviderPricing.for_model, ProviderPricing.openai_pricing,
      ProviderPricing.anthropic_pricing, ProviderPricing.google_pricing,
      ProviderPricing.qwen_pricing] <;>
    split <;> first
      | exact ⟨by decide, by decide⟩
      | (split <;> first
          | exact ⟨by decide, by decide⟩
          | (split <;> exact ⟨by decide, by decide⟩))

/-- C9: for every provider, model and non-negative token counts,
`calculate_cost` equals
`⌊prompt·priceIn/1e6⌋ + ⌊completion·priceOut/1e6⌋` over the static price
table, is non-negative, and is non-decreasing when either token count
increases. -/
theorem calculate_cost_floor_nonneg_mono (provider : Provider) (model : List Char)
    (p c p' c' : Int) (hp : 0 ≤ p) (hc : 0 ≤ c) (hpp : p ≤ p') (hcc : c ≤ c') :
    UsageLogger.calculate_cost provider model p c =
      Int.fdiv (p * (ProviderPricing.for_model provider model).input_per_million) 1000000 +
      Int.fdiv (c * (ProviderPricing.for_model provider model).output_per_million) 1000000 ∧
    0 ≤ UsageLogger.calculate_cost provider model p c ∧
    UsageLogger.calculate_cost provider model p c ≤
      UsageLogger.calculate_cost provider model p' c' := by
  obtain ⟨hin, hout⟩ := ProviderPricing.for_model_pos provider model
  set pr := ProviderPricing.for_model provider model with hpr
  have hp' : 0 ≤ p' := le_trans hp hpp
  have hc' : 0 ≤ c' := le_trans hc hcc
  have hmulp : 0 ≤ p * pr.input_per_million := mul_nonneg hp (le_of_lt hin)
  have hmulc : 0 ≤ c * pr.output_per_million := mul_nonneg hc (le_of_lt hout)
  have hmulp' : 0 ≤ p' * pr.input_per_million := mul_nonneg hp' (le_of_lt hin)
  have hmulc' : 0 ≤ c' * pr.output_per_million := mul_nonneg hc' (le_of_lt hout)
  have e1 : Int.tdiv (p * pr.input_per_million) 1000000 =
      (p * pr.input_per_million) / 1000000 := Int.tdiv_eq_ediv hmulp (by decide)
  have e2 : Int.tdiv (c * pr.output_per_million) 1000000 =
      (c * pr.output_per_million) / 1000000 := Int.tdiv_eq_ediv hmulc (by decide)
  have e1' : Int.tdiv (p' * pr.input_per_million) 1000000 =
      (p' * pr.input_per_million) / 1000000 := Int.tdiv_eq_ediv hmulp' (by decide)
  have e2' : Int.tdiv (c' * pr.output_per_million) 1000000 =
      (c' * pr.output_per_million) / 1000000 := Int.tdiv_eq_ediv hmulc' (by decide)
  have f1 : Int.fdiv (p * pr.input_per_million) 1000000 =
      (p * pr.input_per_million) / 1000000 := Int.fdiv_eq_ediv _ (by decide)
  have f2 : Int.fdiv (c * pr.output_per_million) 1000000 =
      (c * pr.output_per_million) / 1000000 := Int.fdiv_eq_ediv _ (by decide)
  refine ⟨?_, ?_, ?_⟩
  · simp only [UsageLogger.calculate_cost, ← hpr, e1, e2, f1, f2]
  · simp only [UsageLogger.calculate_cost, ← hpr, e1, e2]
    exact add_nonneg (Int.ediv_nonneg hmulp (by decide)) (Int.ediv_nonneg hmulc (by decide))
  · simp only [UsageLogger.calculate_cost, ← hpr, e1, e2, e1', e2']
    have m1 : (p * pr.input_per_million) / 1000000 ≤ (p' * pr.input_per_million) / 1000000 :=
      Int.ediv_le_ediv (by decide) (mul_le_mul_of_nonneg_right hpp (le_of_lt hin))
    have m2 : (c * pr.output_per_million) / 1000000 ≤ (c' * pr.output_per_million) / 1000000 :=
      Int.ediv_le_ediv (by decide) (mul_le_mul_of_nonneg_right hcc (le_of_lt hout))
    exact add_le_add m1 m2

/-- Witness for C9 at provider Google, model "gemini-1.5-flash",
token counts 100 ≤ 200 and 50 ≤ 50. -/
theorem calculate_cost_floor_nonneg_mono_witness :
    UsageLogger.calculate_cost Provider.Google "gemini-1.5-flash".toList 100 50 =
      Int.fdiv (100 * 1163) 1000000 + Int.fdiv (50 * 4650) 1000000 ∧
    0 ≤ UsageLogger.calculate_cost Provider.Google "gemini-1.5-flash".toList 100 50 ∧
    UsageLogger.calculate_cost Provider.Google "gemini-1.5-flash".toList 100 50 ≤
      UsageLogger.calculate_cost Provider.Google "gemini-1.5-flash".toList 200 50 := by
  have h := calculate_cost_floor_nonneg_mono Provider.Google "gemini-1.5-flash".toList
    100 50 200 50 (by decide) (by decide) (by decide) (by decide)
  refine ⟨?_, h.2.1, h.2.2⟩
  rw [h.1]
  decide


/-- A `Bool` that is not `true` is `false`. -/
theorem bool_ne_true {b : Bool} (h : ¬ b = true) : b = false := by
  cases b
  · rfl
  · exact absurd rfl h

/-- If `p` and `q` are both prefixes of `m` and `p` is the shorter one,
then `p` is a prefix of `q`. -/
theorem strStartsWith_of_both (p : List Char) :
    ∀ (m q : List Char), strStartsWith m p = true → strStartsWith m q = true →
      p.length ≤ q.length → strStartsWith q p = true := by
  induction p with
  | nil => intro m q _ _ _; cases q <;> rfl
  | cons a pa ih =>
    intro m q hp hq hlen
    cases q with
    | nil => simp at hlen
    | cons b qb =>
      cases m with
      | nil => simp [strStartsWith] at hp
      | cons c cs =>
        simp only [strStartsWith, Bool.and_eq_true, decide_eq_true_eq] at hp hq ⊢
        simp only [List.length_cons, Nat.add_le_add_iff_right] at hlen
        exact ⟨hq.1.symm.trans hp.1, ih cs qb hp.2 hq.2 hlen⟩

/-- Two patterns, neither a prefix of the other, cannot both be prefixes
of the same string. -/
theorem strStartsWith_excl {m p q : List Char}
    (hp : strStartsWith m p = true) (hq : strStartsWith m q = true)
    (hpq : strStartsWith q p = false) (hqp : strStartsWith p q = false) : False := by
  rcases Nat.le_total p.length q.length with hlen | hlen
  · exact absurd (strStartsWith_of_both p m q hp hq hlen) (by simp [hpq])
  · exact absurd (strStartsWith_of_both q m p hq hp hlen) (by simp [hqp])

/-- If `m` starts with `p`, it does not start with an incomparable `q`. -/
theorem strStartsWith_excl_false {m p q : List Char}
    (hp : strStartsWith m p = true)
    (hpq : strStartsWith q p = false) (hqp : strStartsWith p q = false) :
    strStartsWith m q = false := by
  cases hv : strStartsWith m q with
  | false => rfl
  | true => exact absurd (strStartsWith_excl hp hv hpq hqp) id

/-- C7: provider routing is a total function over model-name prefixes:
`gpt-`/`o1-` map to OpenAI, `claude-` to Anthropic, `gemini-` to Google,
`qwen-`/`qwen2-` to Qwen, and every other string yields no provider. -/
theorem from_model_prefix_routing (m : List Char) :
    (Provider.from_model m = some Provider.OpenAI ↔
      (strStartsWith m pfxGpt = true ∨ strStartsWith m pfxO1 = true)) ∧
    (Provider.from_model m = some Provider.Anthropic ↔
      strStartsWith m pfxClaude = true) ∧
    (Provider.from_model m = some Provider.Google ↔
      strStartsWith m pfxGemini = true) ∧
    (Provider.from_model m = some Provider.Qwen ↔
      (strStartsWith m pfxQwen = true ∨ strStartsWith m pfxQwen2 = true)) ∧
    (Provider.from_model m = none ↔
      (strStartsWith m pfxGpt = false ∧ strStartsWith m pfxO1 = false ∧
       strStartsWith m pfxClaude = false ∧ strStartsWith m pfxGemini = false ∧
       strStartsWith m pfxQwen = false ∧ strStartsWith m pfxQwen2 = false)) := by
  by_cases h1 : (strStartsWith m pfxGpt || strStartsWith m pfxO1) = true
  · rcases Bool.or_eq_true_iff.mp h1 with hg | ho
    · have hcl := strStartsWith_excl_false hg (q := pfxClaude) (by decide) (by decide)
      have hgm := strStartsWith_excl_false hg (q := pfxGemini) (by decide) (by decide)
      have hqw := strStartsWith_excl_false hg (q := pfxQwen) (by decide) (by decide)
      have hqw2 := strStartsWith_excl_false hg (q := pfxQwen2) (by decide) (by decide)
      simp [Provider.from_model, hg, hcl, hgm, hqw, hqw2]
    · have hcl := strStartsWith_excl_false ho (q := pfxClaude) (by decide) (by decide)
      have hgm := strStartsWith_excl_false ho (q := pfxGemini) (by decide) (by decide)
      have hqw := strStartsWith_excl_false ho (q := pfxQwen) (by decide) (by decide)
      have hqw2 := strStartsWith_excl_false ho (q := pfxQwen2) (by decide) (by decide)
      simp [Provider.from_model, ho, hcl, hgm, hqw, hqw2]
  · have h1' := Bool.or_eq_false_iff.mp (bool_ne_true h1)
    by_cases h2 : strStartsWith m pfxClaude = true
    · have hgm := strStartsWith_excl_false h2 (q := pfxGemini) (by decide) (by decide)
      have hqw := strStartsWith_excl_false h2 (q := pfxQwen) (by decide) (by decide)
      have hqw2 := strStartsWith_excl_false h2 (q := pfxQwen2) (by decide) (by decide)
      simp [Provider.from_model, h1'.1, h1'.2, h2, hgm, hqw, hqw2]
    · have h2' := bool_ne_true h2
      by_cases h3 : strStartsWith m pfxGemini = true
      · have hqw := strStartsWith_excl_false h3 (q := pfxQwen) (by decide) (by decide)
        have hqw2 := strStartsWith_excl_false h3 (q := pfxQwen2) (by decide) (by decide)
        simp [Provider.from_model, h1'.1, h1'.2, h2', h3, hqw, hqw2]
      · have h3' := bool_ne_true h3
        by_cases h4 : (strStartsWith m pfxQwen || strStartsWith m pfxQwen2) = true
        · rcases Bool.or_eq_true_iff.mp h4 with hq | hq2
          · have hq2' := strStartsWith_excl_false hq (q := pfxQwen2) (by decide) (by decide)
            simp [Provider.from_model, h1'.1, h1'.2, h2', h3', hq, hq2']
          · have hq' := strStartsWith_excl_false hq2 (q := pfxQwen) (by decide) (by decide)
            simp [Provider.from_model, h1'.1, h1'.2, h2', h3', hq', hq2]
        · have h4' := Bool.or_eq_false_iff.mp (bool_ne_true h4)
          simp [Provider.from_model, h1'.1, h1'.2, h2', h3', h4'.1, h4'.2]

/-- Model of Rust `str::to_lowercase` (character-wise lowercasing; the
finish-reason values it is applied to are ASCII). -/
def strToLower (s : String) : String := String.mk (s.data.map Char.toLower)

/-- transformers/mod.rs: unified `Message`. -/
structure Message where
  role : String
  content : String
  deriving DecidableEq, Repr

/-- transformers/mod.rs: unified `ChatCompletionRequest`
(OpenAI-compatible). `u32` is modelled as `Nat`, `f32` as `Float`. -/
structure ChatCompletionRequest where
  model : String
  messages : List Message
  temperature : Option Float
  max_tokens : Option Nat
  stream : Bool
  top_p : Option Float
  frequency_penalty : Option Float
  presence_penalty : Option Float
  stop : Option (List String)
  user : Option String

/-- transformers/mod.rs: unified `Usage`. -/
structure Usage where
  prompt_tokens : Int
  completion_tokens : Int
  total_tokens : Int
  deriving DecidableEq, Repr

/-- transformers/mod.rs: unified `Choice`. -/
structure Choice where
  index : Int
  message : Message
  finish_reason : Option String
  deriving DecidableEq, Repr

/-- transformers/mod.rs: unified `ChatCompletionResponse`. -/
structure ChatCompletionResponse where
  id : String
  object : String
  created : Int
  model : String
  choices : List Choice
  usage : Usage
  deriving DecidableEq, Repr

/-- transformers/anthropic.rs: `AnthropicMessage`. -/
structure AnthropicMessage where
  role : String
  content : String
  deriving DecidableEq, Repr

/-- transformers/anthropic.rs: `AnthropicRequest`. -/
structure AnthropicRequest where
  model : String
  max_tokens : Nat
  system : Option String
  messages : List AnthropicMessage
  temperature : Option Float
  top_p : Option Float
  stop_sequences : Option (List String)
  stream : Option Bool

/-- transformers/anthropic.rs: `AnthropicContent` (`r#type` is `type`). -/
structure AnthropicContent where
  type : String
  text : String
  deriving DecidableEq, Repr

/-- transformers/anthropic.rs: `AnthropicUsage`. -/
structure AnthropicUsage where
  input_tokens : Int
  output_tokens : Int
  deriving DecidableEq, Repr

/-- transformers/anthropic.rs: `AnthropicResponse`. -/
structure AnthropicResponse where
  id : String
  type : String
  role : String
  content : List AnthropicContent
  model : String
  stop_reason : Option String
  stop_sequence : Option String
  usage : AnthropicUsage
  deriving DecidableEq, Repr

/-- `AnthropicTransformer::transform_request` (anthropic.rs lines 70-101).
The Rust `for` loop over `request.messages`, with its two mutable locals
`system_message` and `messages`, is embedded as a left fold over the pair
of accumulators. -/
def AnthropicTransformer.transform_request (request : ChatCompletionRequest) :
    AnthropicRequest :=
  let acc := request.messages.foldl
    (fun (acc : Option String × List AnthropicMessage) msg =>
      if msg.role = "system" then (some msg.content, acc.2)
      else (acc.1, acc.2 ++ [{ role := msg.role, content := msg.content }]))
    (none, [])
  { model := request.model
    max_tokens := request.max_tokens.getD 4096
    system := acc.1
    messages := acc.2
    temperature := request.temperature
    top_p := request.top_p
    stop_sequences := request.stop
    stream := if request.stream then some true else none }

/-- `AnthropicTransformer::transform_response` (anthropic.rs lines 105-144).
`Utc::now().timestamp()` is passed in as `now`. -/
def AnthropicTransformer.transform_response (response : AnthropicResponse)
    (now : Int) : ChatCompletionResponse :=
  let content := String.join
    ((response.content.filter (fun c => c.type = "text")).map (fun c => c.text))
  let finish_reason := response.stop_reason.map (fun reason =>
    if reason = "end_turn" then "stop"
    else if reason = "max_tokens" then "length"
    else if reason = "stop_sequence" then "stop"
    else reason)
  { id := "chatcmpl-" ++ response.id
    object := "chat.completion"
    created := now
    model := response.model
    choices := [{ index := 0
                  message := { role := "assistant", content := content }
                  finish_reason := finish_reason }]
    usage := { prompt_tokens := response.usage.input_tokens
               completion_tokens := response.usage.output_tokens
               total_tokens := response.usage.input_tokens + response.usage.output_tokens } }

/-- transformers/google.rs: `Part` (named `Google.Part` here because
Mathlib already has a `Part`). -/
structure Google.Part where
  text : String
  deriving DecidableEq, Repr

/-- transformers/google.rs: `GoogleContent`. -/
structure GoogleContent where
  role : String
  parts : List Google.Part
  deriving DecidableEq, Repr

/-- transformers/google.rs: `GenerationConfig`. -/
structure GenerationConfig where
  temperature : Option Float
  top_p : Option Float
  max_output_tokens : Option Nat
  stop_sequences : Option (List String)

/-- transformers/google.rs: `GoogleRequest`. -/
structure GoogleRequest where
  contents : List GoogleContent
  generation_config : Option GenerationConfig
  system_instruction : Option GoogleContent

/-- transformers/google.rs: `Candidate`. -/
structure Candidate where
  content : GoogleContent
  finish_reason : Option String
  index : Option Int
  deriving DecidableEq, Repr

/-- transformers/google.rs: `UsageMetadata`. -/
structure UsageMetadata where
  prompt_token_count : Option Int
  candidates_token_count : Option Int
  total_token_count : Option Int
  deriving DecidableEq, Repr

/-- transformers/google.rs: `GoogleResponse`. -/
structure GoogleResponse where
  candidates : List Candidate
  usage_metadata : Option UsageMetadata
  deriving DecidableEq, Repr

/-- `GoogleTransformer::transform_request` (google.rs lines 79-125).
The Rust `for` loop with mutable `contents` and `system_instruction`
is embedded as a left fold over the pair of accumulators. -/
def GoogleTransformer.transform_request (request : ChatCompletionRequest) :
    GoogleRequest :=
  let acc := request.messages.foldl
    (fun (acc : Option GoogleContent × List GoogleContent) msg =>
      if msg.role = "system" then
        (some { role := "user", parts := [{ text := msg.content }] }, acc.2)
      else
        (acc.1, acc.2 ++
          [{ role := if msg.role = "assistant" then "model" else msg.role
             parts := [{ text := msg.content }] }]))
    (none, [])
  let generation_config :=
    if request.temperature.isSome || request.top_p.isSome
        || request.max_tokens.isSome || request.stop.isSome then
      some { temperature := request.temperature
             top_p := request.top_p
             max_output_tokens := request.max_tokens
             stop_sequences := request.stop }
    else
      none
  { contents := acc.2
    generation_config := generation_config
    system_instruction := acc.1 }

/-- `GoogleTransformer::transform_response` (google.rs lines 129-183).
`Utc::now().timestamp()` is `now` and the fresh `Uuid::new_v4()` is `uid`. -/
def GoogleTransformer.transform_response (response : GoogleResponse)
    (model : String) (now : Int) (uid : String) : ChatCompletionResponse :=
  let choices := response.candidates.enum.map (fun ci =>
    let candidate := ci.2
    let content := String.join (candidate.content.parts.map (fun p => p.text))
    let finish_reason := candidate.finish_reason.map (fun reason =>
      if reason = "STOP" then "stop"
      else if reason = "MAX_TOKENS" then "length"
      else if reason = "SAFETY" then "content_filter"
      else if reason = "RECITATION" then "content_filter"
      else strToLower reason)
    { index := candidate.index.getD (Int.ofNat ci.1)
      message := { role := "assistant", content := content }
      finish_reason := finish_reason })
  let usage := (response.usage_metadata.map (fun u =>
    { prompt_tokens := u.prompt_token_count.getD 0
      completion_tokens := u.candidates_token_count.getD 0
      total_tokens := u.total_token_count.getD 0 })).getD
    { prompt_tokens := 0, completion_tokens := 0, total_tokens := 0 }
  { id := "chatcmpl-" ++ uid
    object := "chat.completion"
    created := now
    model := model
    choices := choices
    usage := usage }

/-- transformers/qwen.rs: `QwenUsage`. -/
structure QwenUsage where
  input_tokens : Int
  output_tokens : Int
  total_tokens : Option Int
  deriving DecidableEq, Repr

/-- transformers/qwen.rs: `QwenMessage`. -/
structure QwenMessage where
  role : String
  content : String
  deriving DecidableEq, Repr

/-- transformers/qwen.rs: `QwenChoice`. -/
structure QwenChoice where
  finish_reason : String
  message : QwenMessage
  deriving DecidableEq, Repr

/-- transformers/qwen.rs: `QwenOutput`. -/
structure QwenOutput where
  text : Option String
  finish_reason : Option String
  choices : Option (List QwenChoice)
  deriving DecidableEq, Repr

/-- transformers/qwen.rs: `QwenResponse`. -/
structure QwenResponse where
  output : QwenOutput
  usage : QwenUsage
  request_id : String
  deriving DecidableEq, Repr

/-- `QwenTransformer::map_finish_reason` (qwen.rs lines 176-183). -/
def QwenTransformer.map_finish_reason (reason : String) : String :=
  if reason = "stop" then "stop"
  else if reason = "length" then "length"
  else if reason = "null" then "stop"
  else reason

/-- `QwenTransformer::transform_response` (qwen.rs lines 133-173).
`Utc::now().timestamp()` is passed in as `now`. -/
def QwenTransformer.transform_response (response : QwenResponse)
    (model : String) (now : Int) : ChatCompletionResponse :=
  let pair :=
    match response.output.choices with
    | some choices =>
      match choices.head? with
      | some choice =>
        (choice.message.content, some (QwenTransformer.map_finish_reason choice.finish_reason))
      | none => ("", none)
    | none =>
      (response.output.text.getD "",
       response.output.finish_reason.map (fun r => QwenTransformer.map_finish_reason r))
  { id := "chatcmpl-" ++ response.request_id
    object := "chat.completion"
    created := now
    model := model
    choices := [{ index := 0
                  message := { role := "assistant", content := pair.1 }
                  finish_reason := pair.2 }]
    usage := { prompt_tokens := response.usage.input_tokens
               completion_tokens := response.usage.output_tokens
               total_tokens := response.usage.total_tokens.getD
                 (response.usage.input_tokens + response.usage.output_tokens) } }

/-- C2 counterexample: a Google response that reports prompt and
completion token counts but omits `totalTokenCount` is transformed to a
usage with `total_tokens = 0`, not `prompt_tokens + completion_tokens`
(google.rs line 168 `total_token_count.unwrap_or(0)`). -/
theorem google_usage_total_counterexample :
    (GoogleTransformer.transform_response
        { candidates := []
          usage_metadata := some
            { prompt_token_count := some 10
              candidates_token_count := some 15
              total_token_count := none } }
        "gemini-pro" 0 "id0").usage.prompt_tokens = 10 ∧
    (GoogleTransformer.transform_response
        { candidates := []
          usage_metadata := some
            { prompt_token_count := some 10
              candidates_token_count := some 15
              total_token_count := none } }
        "gemini-pro" 0 "id0").usage.completion_tokens = 15 ∧
    (GoogleTransformer.transform_response
        { candidates := []
          usage_metadata := some
            { prompt_token_count := some 10
              candidates_token_count := some 15
              total_token_count := none } }
        "gemini-pro" 0 "id0").usage.total_tokens = 0 := by
  exact ⟨rfl, rfl, rfl⟩

/-- C2 (amended): Anthropic always computes `total = input + output`;
Qwen computes `total = input + output` exactly when the provider omits
the total, and passes a reported total through; Google passes the
reported total through, defaulting an absent field to 0. -/
theorem usage_total_invariant :
    (∀ (ar : AnthropicResponse) (now : Int),
      (AnthropicTransformer.transform_response ar now).usage.total_tokens =
        (AnthropicTransformer.transform_response ar now).usage.prompt_tokens +
        (AnthropicTransformer.transform_response ar now).usage.completion_tokens) ∧
    (∀ (qr : QwenResponse) (model : String) (now : Int),
      qr.usage.total_tokens = none →
      (QwenTransformer.transform_response qr model now).usage.total_tokens =
        (QwenTransformer.transform_response qr model now).usage.prompt_tokens +
        (QwenTransformer.transform_response qr model now).usage.completion_tokens) ∧
    (∀ (qr : QwenResponse) (model : String) (now : Int) (t : Int),
      qr.usage.total_tokens = some t →
      (QwenTransformer.transform_response qr model now).usage.total_tokens = t) ∧
    (∀ (gr : GoogleResponse) (model : String) (now : Int) (uid : String)
        (u : UsageMetadata),
      gr.usage_metadata = some u →
      (GoogleTransformer.transform_response gr model now uid).usage.total_tokens =
        u.total_token_count.getD 0) := by
  refine ⟨fun ar now => rfl, fun qr model now h => ?_, fun qr model now t h => ?_,
    fun gr model now uid u h => ?_⟩
  · simp [QwenTransformer.transform_response, h]
  · simp [QwenTransformer.transform_response, h]
  · simp [GoogleTransformer.transform_response, h]

/-- Witness for C2's amended invariant at concrete responses. -/
theorem usage_total_invariant_witness :
    (QwenTransformer.transform_response
        { output := { text := some "hi", finish_reason := some "stop", choices := none }
          usage := { input_tokens := 3, output_tokens := 4, total_tokens := none }
          request_id := "r1" }
        "qwen-turbo" 0).usage.total_tokens = 7 ∧
    (GoogleTransformer.transform_response
        { candidates := []
          usage_metadata := some
            { prompt_token_count := some 10
              candidates_token_count := some 15
              total_token_count := some 25 } }
        "gemini-pro" 0 "id0").usage.total_tokens = 25 := by
  constructor
  · have h := usage_total_invariant.2.1
      { output := { text := some "hi", finish_reason := some "stop", choices := none }
        usage := { input_tokens := 3, output_tokens := 4, total_tokens := none }
        request_id := "r1" }
      "qwen-turbo" 0 rfl
    simpa using h
  · have h := usage_total_invariant.2.2.2
      { candidates := []
        usage_metadata := some
          { prompt_token_count := some 10
            candidates_token_count := some 15
            total_token_count := some 25 } }
      "gemini-pro" 0 "id0"
      { prompt_token_count := some 10
        candidates_token_count := some 15
        total_token_count := some 25 } rfl
    simpa using h

/-- The message list accumulated by the transformers' shared loop shape
(`if role == "system" { capture } else { push }`) is the conversion of the
non-system messages, in order. -/
theorem sysfold_snd {σ α : Type} (sv : Message → σ) (cv : Message → α)
    (msgs : List Message) :
    ∀ (s0 : Option σ) (acc0 : List α),
      (msgs.foldl
        (fun (acc : Option σ × List α) msg =>
          if msg.role = "system" then (some (sv msg), acc.2)
          else (acc.1, acc.2 ++ [cv msg])) (s0, acc0)).2
      = acc0 ++ (msgs.filter (fun m => ¬ m.role = "system")).map cv := by
  induction msgs with
  | nil => intro s0 acc0; simp
  | cons h t ih =>
    intro s0 acc0
    by_cases hr : h.role = "system"
    · simp [List.foldl_cons, hr, ih]
    · simp [List.foldl_cons, hr, ih]

/-- If no message is a system message, the loop never overwrites the
captured system value. -/
theorem sysfold_fst_none {σ α : Type} (sv : Message → σ) (cv : Message → α)
    (msgs : List Message) :
    ∀ (s0 : Option σ) (acc0 : List α), (∀ m ∈ msgs, ¬ m.role = "system") →
      (msgs.foldl
        (fun (acc : Option σ × List α) msg =>
          if msg.role = "system" then (some (sv msg), acc.2)
          else (acc.1, acc.2 ++ [cv msg])) (s0, acc0)).1 = s0 := by
  induction msgs with
  | nil => intro s0 acc0 _; rfl
  | cons h t ih =>
    intro s0 acc0 hall
    have hr : ¬ h.role = "system" := hall h (List.mem_cons_self h t)
    simp only [List.foldl_cons, if_neg hr]
    exact ih s0 (acc0 ++ [cv h]) (fun m hm => hall m (List.mem_cons_of_mem h hm))

/-- With at most one system message, the captured system value is the
conversion of the first (and only) system message, if any. -/
theorem sysfold_fst {σ α : Type} (sv : Message → σ) (cv : Message → α)
    (msgs : List Message) :
    ∀ (s0 : Option σ) (acc0 : List α),
      (msgs.filter (fun m => m.role = "system")).length ≤ 1 →
      (msgs.foldl
        (fun (acc : Option σ × List α) msg =>
          if msg.role = "system" then (some (sv msg), acc.2)
          else (acc.1, acc.2 ++ [cv msg])) (s0, acc0)).1
      = (msgs.find? (fun m => m.role = "system")).elim s0 (fun m => some (sv m)) := by
  induction msgs with
  | nil => intro s0 acc0 _; rfl
  | cons h t ih =>
    intro s0 acc0 hlen
    by_cases hr : h.role = "system"
    · have hfilter : (t.filter (fun m => m.role = "system")) = [] := by
        rw [List.filter_cons_of_pos (by simp [hr])] at hlen
        simp only [List.length_cons] at hlen
        exact List.length_eq_zero.mp (by omega)
      have hall : ∀ m ∈ t, ¬ m.role = "system" := by
        intro m hm
        intro hsys
        have : m ∈ t.filter (fun m => m.role = "system") :=
          List.mem_filter.mpr ⟨hm, by simp [hsys]⟩
        simp [hfilter] at this
      simp only [List.foldl_cons, if_pos hr]
      rw [sysfold_fst_none sv cv t _ _ hall]
      rw [List.find?_cons_of_pos _ (by simp [hr])]
      rfl
    · have hlen' : (t.filter (fun m => m.role = "system")).length ≤ 1 := by
        rwa [List.filter_cons_of_neg (by simp [hr])] at hlen
      simp only [List.foldl_cons, if_neg hr]
      rw [ih s0 (acc0 ++ [cv h]) hlen']
      rw [List.find?_cons_of_neg _ (by simp [hr])]

/-- C6: with at most one system message, the Anthropic request transform
keeps exactly the non-system messages in order with role and content
unchanged, and puts the system content (if any) in the separate `system`
field; the Google request transform produces the non-system messages in
order with `assistant` rewritten to `model` and all other roles unchanged,
and puts the system content (if any) in `systemInstruction`. -/
theorem request_transform_preserves_messages (req : ChatCompletionRequest)
    (hsys : (req.messages.filter (fun m => m.role = "system")).length ≤ 1) :
    (AnthropicTransformer.transform_request req).messages =
      (req.messages.filter (fun m => ¬ m.role = "system")).map
        (fun m => { role := m.role, content := m.content : AnthropicMessage }) ∧
    (AnthropicTransformer.transform_request req).system =
      (req.messages.find? (fun m => m.role = "system")).map (fun m => m.content) ∧
    (GoogleTransformer.transform_request req).contents =
      (req.messages.filter (fun m => ¬ m.role = "system")).map
        (fun m => { role := if m.role = "assistant" then "model" else m.role
                    parts := [{ text := m.content }] : GoogleContent }) ∧
    (GoogleTransformer.transform_request req).system_instruction =
      (req.messages.find? (fun m => m.role = "system")).map
        (fun m => { role := "user", parts := [{ text := m.content }] }) := by
  refine ⟨?_, ?_, ?_, ?_⟩
  · have h := sysfold_snd (fun m => m.content)
      (fun m => { role := m.role, content := m.content : AnthropicMessage })
      req.messages none []
    simpa [AnthropicTransformer.transform_request] using h
  · have h := sysfold_fst (fun m => m.content)
      (fun m => { role := m.role, content := m.content : AnthropicMessage })
      req.messages none [] hsys
    simp [AnthropicTransformer.transform_request, h, Option.elim]
    cases req.messages.find? (fun m => m.role = "system") <;> rfl
  · have h := sysfold_snd
      (fun m => { role := "user", parts := [{ text := m.content }] : GoogleContent })
      (fun m => { role := if m.role = "assistant" then "model" else m.role
                  parts := [{ text := m.content }] : GoogleContent })
      req.messages none []
    simpa [GoogleTransformer.transform_request] using h
  · have h := sysfold_fst
      (fun m => { role := "user", parts := [{ text := m.content }] : GoogleContent })
      (fun m => { role := if m.role = "assistant" then "model" else m.role
                  parts := [{ text := m.content }] : GoogleContent })
      req.messages none [] hsys
    simp [GoogleTransformer.transform_request, h, Option.elim]
    cases req.messages.find? (fun m => m.role = "system") <;> rfl

/-- A concrete request with one system, one user and one assistant
message. -/
def c6req : ChatCompletionRequest :=
  { model := "claude-3-opus-20240229"
    messages := [{ role := "system", content := "You are helpful." },
                 { role := "user", content := "Hello!" },
                 { role := "assistant", content := "Hi!" }]
    temperature := none
    max_tokens := none
    stream := false
    top_p := none
    frequency_penalty := none
    presence_penalty := none
    stop := none
    user := none }

/-- Witness for C6 at `c6req`. -/
theorem request_transform_preserves_messages_witness :
    (AnthropicTransformer.transform_request c6req).messages =
      [{ role := "user", content := "Hello!" }, { role := "assistant", content := "Hi!" }] ∧
    (AnthropicTransformer.transform_request c6req).system = some "You are helpful." ∧
    (GoogleTransformer.transform_request c6req).contents =
      [{ role := "user", parts := [{ text := "Hello!" }] },
       { role := "model", parts := [{ text := "Hi!" }] }] ∧
    (GoogleTransformer.transform_request c6req).system_instruction =
      some { role := "user", parts := [{ text := "You are helpful." }] } := by
  obtain ⟨h1, h2, h3, h4⟩ := request_transform_preserves_messages c6req (by decide)
  refine ⟨?_, ?_, ?_, ?_⟩
  · rw [h1]; decide
  · rw [h2]; decide
  · rw [h3]; decide
  · rw [h4]; decide

/-- stream_handler.rs: `StreamDelta`. -/
structure StreamDelta where
  role : Option String
  content : Option String
  deriving DecidableEq, Repr

/-- stream_handler.rs: `StreamChoice`. -/
structure StreamChoice where
  index : Int
  delta : StreamDelta
  finish_reason : Option String
  deriving DecidableEq, Repr

/-- stream_handler.rs: `StreamChunk` (OpenAI-compatible streaming chunk). -/
structure StreamChunk where
  id : String
  object : String
  created : Int
  model : String
  choices : List StreamChoice
  deriving DecidableEq, Repr

/-- stream_handler.rs: `AnthropicMessageStart`. -/
structure AnthropicMessageStart where
  id : String
  model : String
  deriving DecidableEq, Repr

/-- stream_handler.rs: `AnthropicContentBlock` (`r#type` is `type`). -/
structure AnthropicContentBlock where
  type : String
  text : String
  deriving DecidableEq, Repr

/-- stream_handler.rs: `AnthropicDelta`. -/
structure AnthropicDelta where
  type : String
  text : String
  deriving DecidableEq, Repr

/-- stream_handler.rs: `AnthropicMessageDeltaContent`. -/
structure AnthropicMessageDeltaContent where
  stop_reason : Option String
  deriving DecidableEq, Repr

/-- stream_handler.rs: `AnthropicUsageDelta`. -/
structure AnthropicUsageDelta where
  output_tokens : Int
  deriving DecidableEq, Repr

/-- stream_handler.rs: `AnthropicError`. -/
structure AnthropicError where
  type : String
  message : String
  deriving DecidableEq, Repr

/-- stream_handler.rs: the tagged `AnthropicStreamEvent` enum. -/
inductive AnthropicStreamEvent where
  | MessageStart (message : AnthropicMessageStart)
  | ContentBlockStart (index : Int) (content_block : AnthropicContentBlock)
  | ContentBlockDelta (index : Int) (delta : AnthropicDelta)
  | ContentBlockStop (index : Int)
  | MessageDelta (delta : AnthropicMessageDeltaContent) (usage : Option AnthropicUsageDelta)
  | MessageStop
  | Ping
  | Error (error : AnthropicError)
  deriving DecidableEq, Repr

/-- stream_handler.rs: `GooglePart` (streaming variant). -/
structure GooglePart where
  text : Option String
  deriving DecidableEq, Repr

/-- stream_handler.rs: `GoogleContent` (streaming variant; named
`GoogleStreamContent` here because the response-side `GoogleContent`
from google.rs is already declared). -/
structure GoogleStreamContent where
  parts : Option (List GooglePart)
  deriving DecidableEq, Repr

/-- stream_handler.rs: `GoogleCandidate`. -/
structure GoogleCandidate where
  content : Option GoogleStreamContent
  finish_reason : Option String
  deriving DecidableEq, Repr

/-- stream_handler.rs: `GoogleStreamChunk`. -/
structure GoogleStreamChunk where
  candidates : Option (List GoogleCandidate)
  deriving DecidableEq, Repr

/-- stream_handler.rs: `QwenStreamOutput`. -/
structure QwenStreamOutput where
  text : Option String
  finish_reason : Option String
  deriving DecidableEq, Repr

/-- stream_handler.rs: `QwenStreamChunk`. -/
structure QwenStreamChunk where
  output : QwenStreamOutput
  request_id : String
  deriving DecidableEq, Repr

/-- `StreamHandler::parse_sse_line` (stream_handler.rs lines 141-151). -/
def StreamHandler.parse_sse_line (line : String) : Option String :=
  if line.startsWith "data: " then
    let data := line.drop 6
    if data = "[DONE]" then none else some data
  else
    none

/-- `StreamHandler::transform_anthropic_chunk` (stream_handler.rs lines
154-225). `Utc::now().timestamp()` is `now`. -/
def StreamHandler.transform_anthropic_chunk (event : AnthropicStreamEvent)
    (message_id model : String) (now : Int) : Option StreamChunk :=
  match event with
  | AnthropicStreamEvent.ContentBlockStart index content_block =>
    some { id := "chatcmpl-" ++ message_id
           object := "chat.completion.chunk"
           created := now
           model := model
           choices := [{ index := index
                         delta := { role := some "assistant"
                                    content := if content_block.text = "" then none
                                               else some content_block.text }
                         finish_reason := none }] }
  | AnthropicStreamEvent.ContentBlockDelta index delta =>
    if delta.text = "" then none
    else
      some { id := "chatcmpl-" ++ message_id
             object := "chat.completion.chunk"
             created := now
             model := model
             choices := [{ index := index
                           delta := { role := none, content := some delta.text }
                           finish_reason := none }] }
  | AnthropicStreamEvent.MessageDelta delta _ =>
    some { id := "chatcmpl-" ++ message_id
           object := "chat.completion.chunk"
           created := now
           model := model
           choices := [{ index := 0
                         delta := { role := none, content := none }
                         finish_reason := delta.stop_reason.map (fun r =>
                           if r = "end_turn" then "stop"
                           else if r = "max_tokens" then "length"
                           else r) }] }
  | _ => none

/-- `StreamHandler::transform_google_chunk` (stream_handler.rs lines
228-259). `Utc::now().timestamp()` is `now`, the fresh `Uuid::new_v4()`
is `uid`. -/
def StreamHandler.transform_google_chunk (chunk : GoogleStreamChunk)
    (model : String) (now : Int) (uid : String) : Option StreamChunk :=
  match chunk.candidates with
  | none => none
  | some cands =>
    match cands.head? with
    | none => none
    | some candidate =>
      let content := ((candidate.content.bind (fun c => c.parts)).bind
        (fun p => p.head?)).bind (fun p => p.text)
      let finish_reason := candidate.finish_reason.map (fun r =>
        if r = "STOP" then "stop"
        else if r = "MAX_TOKENS" then "length"
        else strToLower r)
      some { id := "chatcmpl-" ++ uid
             object := "chat.completion.chunk"
             created := now
             model := model
             choices := [{ index := 0
                           delta := { role := if content.isSome then some "assistant" else none
                                      content := content }
                           finish_reason := finish_reason }] }

/-- `StreamHandler::transform_qwen_chunk` (stream_handler.rs lines
262-285). -/
def StreamHandler.transform_qwen_chunk (chunk : QwenStreamChunk)
    (model : String) (now : Int) : Option StreamChunk :=
  let finish_reason := chunk.output.finish_reason.map (fun r =>
    if r = "stop" ∨ r = "null" then "stop"
    else if r = "length" then "length"
    else r)
  some { id := "chatcmpl-" ++ chunk.request_id
         object := "chat.completion.chunk"
         created := now
         model := model
         choices := [{ index := 0
                       delta := { role := some "assistant", content := chunk.output.text }
                       finish_reason := finish_reason }] }

/-- C8 counterexample: a Google streaming frame whose first candidate
finishes with `SAFETY` is emitted with finish_reason `"safety"`
(the streaming mapping at stream_handler.rs lines 237-243 lower-cases it),
not the `"content_filter"` required by the §4.3 mapping. -/
theorem google_stream_finish_reason_counterexample :
    (StreamHandler.transform_google_chunk
        { candidates := some [{ content := none, finish_reason := some "SAFETY" }] }
        "gemini-pro" 0 "id0").map (fun c => c.choices.map (fun ch => ch.finish_reason))
      = some [some "safety"] ∧
    ("safety" : String) ≠ "content_filter" := by
  exact ⟨rfl, by decide⟩

/-- C8 (amended): for every Google streaming frame whose first candidate
carries a present finishReason, the emitted unified chunk has exactly one
choice, whose finish_reason maps `STOP` to `stop`, `MAX_TOKENS` to
`length`, and any other value — including `SAFETY` and `RECITATION` — to
its lower-cased form. -/
theorem google_stream_finish_reason_mapping
    (candidate : GoogleCandidate) (rest : List GoogleCandidate)
    (model : String) (now : Int) (uid : String) (r : String)
    (hfr : candidate.finish_reason = some r) :
    (StreamHandler.transform_google_chunk
        { candidates := some (candidate :: rest) } model now uid).map
      (fun c => c.choices.map (fun ch => ch.finish_reason))
      = some [some (if r = "STOP" then "stop"
                    else if r = "MAX_TOKENS" then "length"
                    else strToLower r)] := by
  simp [StreamHandler.transform_google_chunk, hfr]

/-- Witness for C8's amended mapping at a concrete `RECITATION` frame. -/
theorem google_stream_finish_reason_mapping_witness :
    (StreamHandler.transform_google_chunk
        { candidates := some [{ content := none, finish_reason := some "RECITATION" }] }
        "gemini-pro" 0 "id0").map (fun c => c.choices.map (fun ch => ch.finish_reason))
      = some [some "recitation"] := by
  have h := google_stream_finish_reason_mapping
    { content := none, finish_reason := some "RECITATION" } [] "gemini-pro" 0 "id0"
    "RECITATION" rfl
  simpa using h

/-- A caller-facing SSE event yielded by the streaming forwarders in
routes/proxy.rs: either `data: <serialized chunk>` or the terminal
`data: [DONE]`. The serialized form of a `StreamChunk` is a JSON object
and can never equal the literal `[DONE]`, so the two wire cases are
faithfully separated by the two constructors. -/
inductive OutEvent where
  | chunk (c : StreamChunk)
  | done
  deriving DecidableEq, Repr

/-- The `while let Some(pos) = buffer.find(sep)` loop of the stream
forwarders: the complete frames before each separator occurrence
(scanned left to right, non-overlapping), and the leftover kept in the
buffer. -/
def splitFrames (sep buffer : String) : List String × String :=
  let parts := buffer.splitOn sep
  (parts.dropLast, (parts.getLast?).getD "")

/-- Model of Rust `str::lines`: split on `\n`, drop a final empty piece,
strip one trailing `\r` from each line. -/
def rustLines (s : String) : List String :=
  let parts := s.splitOn "\n"
  let parts := if parts.getLast? = some "" then parts.dropLast else parts
  parts.map (fun l => if l.endsWith "\r" then l.dropRight 1 else l)

/-- The `event: `/`data: ` line scan of `forward_anthropic_stream`
(proxy.rs lines 519-529): the last `event: ` and `data: ` payloads of the
frame (empty string when absent). -/
def parseEventBlock (block : String) : String × String :=
  (rustLines block).foldl
    (fun (acc : String × String) line =>
      if line.startsWith "event: " then (line.drop 7, acc.2)
      else if line.startsWith "data: " then (acc.1, line.drop 6)
      else acc)
    ("", "")

/-- Processing of one complete Anthropic SSE frame
(proxy.rs lines 515-547): extract the data payload, parse it
(`serde_json::from_str`, modelled by the `parse` argument), capture the
message id from `message_start`, transform, and yield at most one chunk.
Returns the yielded events and the updated message id. -/
def anthropicProcessFrame (parse : String → Option AnthropicStreamEvent)
    (model : String) (now : Int) (msgId : String) (block : String) :
    List OutEvent × String :=
  let data := (parseEventBlock block).2
  if data = "" then ([], msgId)
  else
    match parse data with
    | none => ([], msgId)
    | some event =>
      let msgId' := match event with
        | AnthropicStreamEvent.MessageStart message => message.id
        | _ => msgId
      match StreamHandler.transform_anthropic_chunk event msgId' model now with
      | some c => ([OutEvent.chunk c], msgId')
      | none => ([], msgId')

/-- Sequential processing of the complete frames drained from the buffer
after one upstream read. -/
def anthropicProcessFrames (parse : String → Option AnthropicStreamEvent)
    (model : String) (now : Int) : List String → String → List OutEvent × String
  | [], msgId => ([], msgId)
  | f :: fs, msgId =>
    let pr := anthropicProcessFrame parse model now msgId f
    let rest := anthropicProcessFrames parse model now fs pr.2
    (pr.1 ++ rest.1, rest.2)

/-- The `while let Some(chunk_result) = byte_stream.next().await` loop of
`forward_anthropic_stream` (proxy.rs lines 509-554): upstream reads are
`Except.ok bytes` (bytes modelled as the string
`String::from_utf8_lossy` produces) or `Except.error` (which `break`s). -/
def forwardAnthropicLoop (parse : String → Option AnthropicStreamEvent)
    (model : String) (now : Int) :
    List (Except Unit String) → String → String → List OutEvent
  | [], _, _ => []
  | Except.error _ :: _, _, _ => []
  | Except.ok bytes :: rest, buffer, msgId =>
    let sp := splitFrames "\n\n" (buffer ++ bytes)
    let pf := anthropicProcessFrames parse model now sp.1 msgId
    pf.1 ++ forwardAnthropicLoop parse model now rest sp.2 pf.2

/-- `forward_anthropic_stream` (proxy.rs lines 503-562): the event loop
followed by the unconditional final `yield` of the `[DONE]` sentinel. -/
def forward_anthropic_stream (parse : String → Option AnthropicStreamEvent)
    (model : String) (now : Int) (chunks : List (Except Unit String)) :
    List OutEvent :=
  forwardAnthropicLoop parse model now chunks "" "" ++ [OutEvent.done]

/-- Processing of one complete line by `forward_google_stream`
(proxy.rs lines 581-588). -/
def googleProcessLine (parse : String → Option GoogleStreamChunk)
    (model : String) (now : Int) (uid : String) (line : String) : List OutEvent :=
  match StreamHandler.parse_sse_line line with
  | none => []
  | some data =>
    match parse data with
    | none => []
    | some gchunk =>
      match StreamHandler.transform_google_chunk gchunk model now uid with
      | some c => [OutEvent.chunk c]
      | none => []

/-- Sequential processing of the complete lines drained from the buffer
after one upstream read. -/
def googleProcessLines (parse : String → Option GoogleStreamChunk)
    (model : String) (now : Int) (uid : String) : List String → List OutEvent
  | [] => []
  | l :: ls =>
    googleProcessLine parse model now uid l ++ googleProcessLines parse model now uid ls

/-- The read loop of `forward_google_stream` (proxy.rs lines 571-596):
frames are delimited by a single `\n`. -/
def forwardGoogleLoop (parse : String → Option GoogleStreamChunk)
    (model : String) (now : Int) (uid : String) :
    List (Except Unit String) → String → List OutEvent
  | [], _ => []
  | Except.error _ :: _, _ => []
  | Except.ok bytes :: rest, buffer =>
    let sp := splitFrames "\n" (buffer ++ bytes)
    googleProcessLines parse model now uid sp.1 ++
      forwardGoogleLoop parse model now uid rest sp.2

/-- `forward_google_stream` (proxy.rs lines 566-604): the event loop
followed by the unconditional final `yield` of the `[DONE]` sentinel. -/
def forward_google_stream (parse : String → Option GoogleStreamChunk)
    (model : String) (now : Int) (uid : String)
    (chunks : List (Except Unit String)) : List OutEvent :=
  forwardGoogleLoop parse model now uid chunks "" ++ [OutEvent.done]

/-- One Anthropic frame yields only `chunk` events, never the sentinel. -/
theorem anthropicProcessFrame_no_done (parse : String → Option AnthropicStreamEvent)
    (model : String) (now : Int) (msgId : String) (block : String) :
    ∀ e ∈ (anthropicProcessFrame parse model now msgId block).1, e ≠ OutEvent.done := by
  intro e he
  simp only [anthropicProcessFrame] at he
  split at he
  · simp at he
  · split at he
    · simp at he
    · split at he
      · simp at he
        subst he
        simp
      · simp at he

/-- A drained frame batch yields only `chunk` events. -/
theorem anthropicProcessFrames_no_done (parse : String → Option AnthropicStreamEvent)
    (model : String) (now : Int) :
    ∀ (frames : List String) (msgId : String),
      ∀ e ∈ (anthropicProcessFrames parse model now frames msgId).1, e ≠ OutEvent.done := by
  intro frames
  induction frames with
  | nil => intro msgId e he; simp [anthropicProcessFrames] at he
  | cons f fs ih =>
    intro msgId e he
    simp only [anthropicProcessFrames, List.mem_append] at he
    rcases he with he | he
    · exact anthropicProcessFrame_no_done parse model now msgId f e he
    · exact ih _ e he

/-- The Anthropic read loop yields only `chunk` events. -/
theorem forwardAnthropicLoop_no_done (parse : String → Option AnthropicStreamEvent)
    (model : String) (now : Int) :
    ∀ (chunks : List (Except Unit String)) (buffer msgId : String),
      ∀ e ∈ forwardAnthropicLoop parse model now chunks buffer msgId,
        e ≠ OutEvent.done := by
  intro chunks
  induction chunks with
  | nil => intro buffer msgId e he; simp [forwardAnthropicLoop] at he
  | cons hd rest ih =>
    intro buffer msgId e he
    cases hd with
    | error err => simp [forwardAnthropicLoop] at he
    | ok bytes =>
      simp only [forwardAnthropicLoop, List.mem_append] at he
      rcases he with he | he
      · exact anthropicProcessFrames_no_done parse model now _ _ e he
      · exact ih _ _ e he

set_option maxHeartbeats 1000000 in
/-- One Google line yields only `chunk` events, never the sentinel. -/
theorem googleProcessLine_no_done (parse : String → Option GoogleStreamChunk)
    (model : String) (now : Int) (uid : String) (line : String) :
    ∀ e ∈ googleProcessLine parse model now uid line, e ≠ OutEvent.done := by
  intro e he
  simp only [googleProcessLine] at he
  split at he
  · simp at he
  · split at he
    · simp at he
    · split at he
      · simp at he
        subst he
        simp
      · simp at he

/-- A drained line batch yields only `chunk` events. -/
theorem googleProcessLines_no_done (parse : String → Option GoogleStreamChunk)
    (model : String) (now : Int) (uid : String) :
    ∀ (ls : List String), ∀ e ∈ googleProcessLines parse model now uid ls,
      e ≠ OutEvent.done := by
  intro ls
  induction ls with
  | nil => intro e he; simp [googleProcessLines] at he
  | cons l ls ih =>
    intro e he
    simp only [googleProcessLines, List.mem_append] at he
    rcases he with he | he
    · exact googleProcessLine_no_done parse model now uid l e he
    · exact ih e he

/-- The Google read loop yields only `chunk` events. -/
theorem forwardGoogleLoop_no_done (parse : String → Option GoogleStreamChunk)
    (model : String) (now : Int) (uid : String) :
    ∀ (chunks : List (Except Unit String)) (buffer : String),
      ∀ e ∈ forwardGoogleLoop parse model now uid chunks buffer,
        e ≠ OutEvent.done := by
  intro chunks
  induction chunks with
  | nil => intro buffer e he; simp [forwardGoogleLoop] at he
  | cons hd rest ih =>
    intro buffer e he
    cases hd with
    | error err => simp [forwardGoogleLoop] at he
    | ok bytes =>
      simp only [forwardGoogleLoop, List.mem_append] at he
      rcases he with he | he
      · exact googleProcessLines_no_done parse model now uid _ e he
      · exact ih _ e he

/-- C1: for every finite sequence of upstream byte chunks — including the
empty sequence and sequences ending in a mid-stream read error — the
Anthropic and Google stream forwarders emit an event sequence that ends
with exactly one `[DONE]` sentinel, and no chunk is emitted after it. -/
theorem stream_single_done_sentinel
    (parseA : String → Option AnthropicStreamEvent)
    (parseG : String → Option GoogleStreamChunk)
    (model : String) (now : Int) (uid : String)
    (chunksA chunksG : List (Except Unit String)) :
    (∃ body, forward_anthropic_stream parseA model now chunksA =
        body ++ [OutEvent.done] ∧ ∀ e ∈ body, e ≠ OutEvent.done) ∧
    (∃ body, forward_google_stream parseG model now uid chunksG =
        body ++ [OutEvent.done] ∧ ∀ e ∈ body, e ≠ OutEvent.done) := by
  constructor
  · exact ⟨forwardAnthropicLoop parseA model now chunksA "" "", rfl,
      forwardAnthropicLoop_no_done parseA model now chunksA "" ""⟩
  · exact ⟨forwardGoogleLoop parseG model now uid chunksG "", rfl,
      forwardGoogleLoop_no_done parseG model now uid chunksG ""⟩

/-- rate_limiter.rs: `RateLimitResult`. `DateTime<Utc>` is modelled as a
Unix timestamp in seconds. -/
structure RateLimitResult where
  allowed : Bool
  remaining : Int
  limit : Int
  reset_at : Int
  retry_after_secs : Option Int
  deriving DecidableEq, Repr

/-- rate_limiter.rs line 37: the per-minute `BURST_LIMIT`. -/
def BURST_LIMIT : Int := 60

/-- The two Redis counters backing the rate limiter: the monthly key and
the current minute-bucket key. `none` is an absent (never written or
expired) key. -/
structure RedisState where
  monthly : Option Int
  minute : Option Int
  deriving DecidableEq, Repr

/-- Which Redis interactions of one `check_and_increment` call fail:
obtaining the multiplexed connection, each `GET`, and the atomic
`MULTI`/`EXEC` increment pipeline. -/
structure RedisFaults where
  connect : Bool
  monthlyRead : Bool
  minuteRead : Bool
  pipe : Bool
  deriving DecidableEq, Repr

/-- One `conn.get::<i64>(key)`: an I/O fault is an error, and so is an
absent key (redis `Nil` does not decode as `i64`); a present counter
decodes to its value. -/
def redisGet (fault : Bool) (v : Option Int) : Except Unit Int :=
  if fault then Except.error ()
  else
    match v with
    | none => Except.error ()
    | some n => Except.ok n

/-- `RateLimiter::check_and_increment` (rate_limiter.rs lines 67-124).
`Utc::now().timestamp()` is `now` and the chrono calendar computation
`next_month_start()` is passed in as `nextMonthStart` (its value is by
definition the start of the next calendar month). Both `GET`s use
`unwrap_or(0)`, so a failed read is flattened to `0`. The returned pair
is the call's result (`Err` models a propagated `RedisError`) and the
state of the two counters afterwards; the `.expire` TTLs of the pipeline
are not tracked (key expiry is the passage of time, not an effect of one
call). A failed pipeline leaves the counters unchanged (`MULTI`/`EXEC`
is atomic). Rust `%` on `i64` truncates toward zero (`Int.tmod`). -/
def RateLimiter.check_and_increment (st : RedisState) (f : RedisFaults)
    (plan : PlanTier) (now nextMonthStart : Int) :
    Except Unit RateLimitResult × RedisState :=
  if f.connect then (Except.error (), st)
  else
    let monthly_limit := plan.request_limit
    let monthly_used := ((redisGet f.monthlyRead st.monthly).toOption).getD 0
    if monthly_used ≥ monthly_limit then
      (Except.ok { allowed := false
                   remaining := 0
                   limit := monthly_limit
                   reset_at := nextMonthStart
                   retry_after_secs := some (nextMonthStart - now) }, st)
    else
      let minute_used := ((redisGet f.minuteRead st.minute).toOption).getD 0
      if minute_used ≥ BURST_LIMIT then
        (Except.ok { allowed := false
                     remaining := monthly_limit - monthly_used
                     limit := monthly_limit
                     reset_at := now + (60 - Int.tmod now 60)
                     retry_after_secs := some (60 - Int.tmod now 60) }, st)
      else
        if f.pipe then (Except.error (), st)
        else
          (Except.ok { allowed := true
                       remaining := monthly_limit - monthly_used - 1
                       limit := monthly_limit
                       reset_at := nextMonthStart
                       retry_after_secs := none },
           { monthly := some (st.monthly.getD 0 + 1)
             minute := some (st.minute.getD 0 + 1) })

/-- A call with no Redis faults at all. -/
def rlHealthy : RedisFaults :=
  { connect := false, monthlyRead := false, minuteRead := false, pipe := false }

/-- The ambient context of one rate-limited call: the minute-bucket
counter it observes and its clock values. -/
structure CallCtx where
  minute_used : Int
  now : Int
  nextMonthStart : Int
  deriving DecidableEq, Repr

/-- A sequence of fault-free `check_and_increment` calls within one
calendar month: the monthly counter is threaded from call to call, while
each call reads its own minute bucket and clock. -/
def runMonth (plan : PlanTier) : List CallCtx → Option Int → List RateLimitResult
  | [], _ => []
  | ctx :: rest, monthly =>
    let r := RateLimiter.check_and_increment
      { monthly := monthly, minute := some ctx.minute_used }
      rlHealthy plan ctx.now ctx.nextMonthStart
    match r.1 with
    | Except.error _ => []
    | Except.ok res => res :: runMonth plan rest r.2.monthly

/-- Every plan's monthly request limit is positive. -/
theorem PlanTier.request_limit_pos (plan : PlanTier) : 0 < plan.request_limit := by
  cases plan <;> decide

/-- Characterization of the i-th (0-based) fault-free call of a month
starting from monthly counter `m`: allowed with
`remaining = L - (m + i) - 1` while `m + i < L`, denied with
`retry_after = nextMonthStart - now` afterwards. -/
theorem runMonth_get (plan : PlanTier) (ctxs : List CallCtx) :
    (∀ ctx ∈ ctxs, ctx.minute_used < BURST_LIMIT) →
    ∀ (m : Int), 0 ≤ m → ∀ (i : Nat) (ctx : CallCtx), ctxs[i]? = some ctx →
      (runMonth plan ctxs (some m))[i]? =
        some (if m + i < plan.request_limit then
          { allowed := true, remaining := plan.request_limit - (m + i) - 1,
            limit := plan.request_limit, reset_at := ctx.nextMonthStart,
            retry_after_secs := none }
        else
          { allowed := false, remaining := 0, limit := plan.request_limit,
            reset_at := ctx.nextMonthStart,
            retry_after_secs := some (ctx.nextMonthStart - ctx.now) }) := by
  induction ctxs with
  | nil =>
    intro _ m _ i ctx hctx
    simp at hctx
  | cons c0 rest ih =>
    intro hburst m hm i ctx hctx
    have hb0 : c0.minute_used < BURST_LIMIT := hburst c0 (List.mem_cons_self c0 rest)
    have hbrest : ∀ ctx ∈ rest, ctx.minute_used < BURST_LIMIT :=
      fun d hd => hburst d (List.mem_cons_of_mem c0 hd)
    by_cases hml : m ≥ plan.request_limit
    · have step : runMonth plan (c0 :: rest) (some m) =
          { allowed := false, remaining := 0, limit := plan.request_limit,
            reset_at := c0.nextMonthStart,
            retry_after_secs := some (c0.nextMonthStart - c0.now) }
          :: runMonth plan rest (some m) := by
        have hml' : plan.request_limit ≤ m := hml
        simp [runMonth, RateLimiter.check_and_increment, redisGet, rlHealthy,
          Except.toOption, Option.getD, hml']
      rw [step]
      cases i with
      | zero =>
        simp at hctx
        subst hctx
        simp only [List.getElem?_cons_zero, Nat.cast_zero, add_zero]
        rw [if_neg (by omega : ¬ m < plan.request_limit)]
      | succ j =>
        simp only [List.getElem?_cons_succ] at hctx ⊢
        rw [ih hbrest m hm j ctx hctx]
        have h1 : ¬ m + ((j:Nat):Int) < plan.request_limit := by omega
        have h2 : ¬ m + (((j+1:Nat)):Int) < plan.request_limit := by
          push_cast
          omega
        rw [if_neg h1, if_neg h2]
    · have step : runMonth plan (c0 :: rest) (some m) =
          { allowed := true, remaining := plan.request_limit - m - 1,
            limit := plan.request_limit,
            reset_at := c0.nextMonthStart, retry_after_secs := none }
          :: runMonth plan rest (some (m + 1)) := by
        have hml' : ¬ plan.request_limit ≤ m := by omega
        have hb0' : ¬ BURST_LIMIT ≤ c0.minute_used := by omega
        simp [runMonth, RateLimiter.check_and_increment, redisGet, rlHealthy,
          Except.toOption, Option.getD, hml', hb0']
      rw [step]
      cases i with
      | zero =>
        simp at hctx
        subst hctx
        simp only [List.getElem?_cons_zero, Nat.cast_zero, add_zero]
        rw [if_pos (by omega : m < plan.request_limit)]
      | succ j =>
        simp only [List.getElem?_cons_succ] at hctx ⊢
        rw [ih hbrest (m + 1) (by omega) j ctx hctx]
        have harith : m + 1 + ((j:Nat):Int) = m + (((j+1:Nat)):Int) := by
          push_cast
          ring
        rw [harith]

/-- Starting a month with an absent monthly key behaves like starting it
at counter 0 (the failed decode of redis `Nil` is `unwrap_or(0)`-ed, and
the first increment creates the key at 1 either way). -/
theorem runMonth_none (plan : PlanTier) (ctxs : List CallCtx)
    (hburst : ∀ ctx ∈ ctxs, ctx.minute_used < BURST_LIMIT) :
    runMonth plan ctxs none = runMonth plan ctxs (some 0) := by
  cases ctxs with
  | nil => rfl
  | cons c0 rest =>
    have hb0 : c0.minute_used < BURST_LIMIT := hburst c0 (List.mem_cons_self c0 rest)
    have hml' : ¬ plan.request_limit ≤ (0:Int) := by
      have := PlanTier.request_limit_pos plan
      omega
    have hb0' : ¬ BURST_LIMIT ≤ c0.minute_used := by omega
    simp [runMonth, RateLimiter.check_and_increment, redisGet, rlHealthy,
      Except.toOption, Option.getD, hml', hb0']

/-- C4: starting from a fresh month with the burst ceiling non-binding,
the (i+1)-th fault-free `check_and_increment` call is allowed with
`remaining = limit - i - 1` while `i < limit`, and denied with
`retry_after = nextMonthStart - now` (the seconds until the next calendar
month) once `i ≥ limit`; a burst denial still reports the monthly
remaining `limit - monthly_used`. -/
theorem monthly_quota_nth_call (plan : PlanTier) (ctxs : List CallCtx)
    (hburst : ∀ ctx ∈ ctxs, ctx.minute_used < BURST_LIMIT)
    (i : Nat) (ctx : CallCtx) (hctx : ctxs[i]? = some ctx) :
    ((i : Int) < plan.request_limit →
      (runMonth plan ctxs none)[i]? =
        some { allowed := true
               remaining := plan.request_limit - i - 1
               limit := plan.request_limit
               reset_at := ctx.nextMonthStart
               retry_after_secs := none }) ∧
    (plan.request_limit ≤ (i : Int) →
      (runMonth plan ctxs none)[i]? =
        some { allowed := false
               remaining := 0
               limit := plan.request_limit
               reset_at := ctx.nextMonthStart
               retry_after_secs := some (ctx.nextMonthStart - ctx.now) }) ∧
    (∀ (m mu now nms : Int), 0 ≤ m → m < plan.request_limit → BURST_LIMIT ≤ mu →
      (RateLimiter.check_and_increment { monthly := some m, minute := some mu }
          rlHealthy plan now nms).1 =
        Except.ok { allowed := false
                    remaining := plan.request_limit - m
                    limit := plan.request_limit
                    reset_at := now + (60 - Int.tmod now 60)
                    retry_after_secs := some (60 - Int.tmod now 60) }) := by
  have h := runMonth_get plan ctxs hburst 0 le_rfl i ctx hctx
  rw [runMonth_none plan ctxs hburst]
  refine ⟨?_, ?_, ?_⟩
  · intro hlt
    rw [h, if_pos (by omega : (0:Int) + (i:Int) < plan.request_limit)]
    norm_num
  · intro hge
    rw [h, if_neg (by omega : ¬ (0:Int) + (i:Int) < plan.request_limit)]
  · intro m mu now nms hm hml hmu
    have hml' : ¬ plan.request_limit ≤ m := by omega
    simp [RateLimiter.check_and_increment, redisGet, rlHealthy,
      Except.toOption, Option.getD, hml', hmu]

/-- Witness for C4: on the Free plan the first call of a month is allowed
with 999 remaining, and a burst-denied call with 5 of 1000 monthly
requests used still reports 995 remaining. -/
theorem monthly_quota_nth_call_witness :
    (runMonth PlanTier.Free [{ minute_used := 0, now := 5, nextMonthStart := 105 }]
        none)[0]? =
      some { allowed := true, remaining := 999, limit := 1000, reset_at := 105,
             retry_after_secs := none } ∧
    (RateLimiter.check_and_increment { monthly := some 5, minute := some 60 }
        rlHealthy PlanTier.Free 5 105).1 =
      Except.ok { allowed := false, remaining := 995, limit := 1000,
                  reset_at := 5 + (60 - Int.tmod 5 60),
                  retry_after_secs := some (60 - Int.tmod 5 60) } := by
  have h := monthly_quota_nth_call PlanTier.Free
    [{ minute_used := 0, now := 5, nextMonthStart := 105 }] (by decide) 0
    { minute_used := 0, now := 5, nextMonthStart := 105 } rfl
  constructor
  · have h1 := h.1 (by decide)
    simpa [PlanTier.request_limit] using h1
  · have h3 := h.2.2 5 60 5 105 (by decide) (by decide) (by decide)
    simpa [PlanTier.request_limit] using h3

/-- C10: a `check_and_increment` call that returns a result (no Redis
error) leaves both counters untouched when the result is Denied, and
increments both counters by exactly one when it is Allowed. -/
theorem denied_request_consumes_no_quota (st : RedisState) (f : RedisFaults)
    (plan : PlanTier) (now nms : Int) (res : RateLimitResult)
    (hres : (RateLimiter.check_and_increment st f plan now nms).1 = Except.ok res) :
    (res.allowed = false →
      (RateLimiter.check_and_increment st f plan now nms).2 = st) ∧
    (res.allowed = true →
      (RateLimiter.check_and_increment st f plan now nms).2.monthly =
        some (st.monthly.getD 0 + 1) ∧
      (RateLimiter.check_and_increment st f plan now nms).2.minute =
        some (st.minute.getD 0 + 1)) := by
  by_cases h1 : f.connect
  · simp [RateLimiter.check_and_increment, h1] at hres
  · by_cases h2 : ((redisGet f.monthlyRead st.monthly).toOption).getD 0 ≥ plan.request_limit
    · simp only [RateLimiter.check_and_increment, if_neg h1, if_pos h2,
        Except.ok.injEq] at hres
      subst hres
      exact ⟨fun _ => by simp [RateLimiter.check_and_increment, if_neg h1, if_pos h2],
        fun htrue => by simp at htrue⟩
    · by_cases h3 : ((redisGet f.minuteRead st.minute).toOption).getD 0 ≥ BURST_LIMIT
      · simp only [RateLimiter.check_and_increment, if_neg h1, if_neg h2, if_pos h3,
          Except.ok.injEq] at hres
        subst hres
        exact ⟨fun _ => by
            simp [RateLimiter.check_and_increment, if_neg h1, if_neg h2, if_pos h3],
          fun htrue => by simp at htrue⟩
      · by_cases h4 : f.pipe
        · simp [RateLimiter.check_and_increment, if_neg h1, if_neg h2, if_neg h3,
            h4] at hres
        · simp only [RateLimiter.check_and_increment, if_neg h1, if_neg h2, if_neg h3,
            if_neg h4, Except.ok.injEq] at hres
          subst hres
          exact ⟨fun hfalse => by simp at hfalse,
            fun _ => by
              simp [RateLimiter.check_and_increment, if_neg h1, if_neg h2, if_neg h3,
                if_neg h4]⟩

/-- Witness for C10: a monthly-denied call leaves the counters untouched,
and an allowed call bumps both by one. -/
theorem denied_request_consumes_no_quota_witness :
    (RateLimiter.check_and_increment { monthly := some 1000, minute := some 0 }
        rlHealthy PlanTier.Free 0 100).2 =
      { monthly := some 1000, minute := some 0 } ∧
    (RateLimiter.check_and_increment { monthly := some 3, minute := some 4 }
        rlHealthy PlanTier.Free 0 100).2.monthly = some 4 ∧
    (RateLimiter.check_and_increment { monthly := some 3, minute := some 4 }
        rlHealthy PlanTier.Free 0 100).2.minute = some 5 := by
  have hd := denied_request_consumes_no_quota { monthly := some 1000, minute := some 0 }
    rlHealthy PlanTier.Free 0 100
    { allowed := false, remaining := 0, limit := 1000, reset_at := 100,
      retry_after_secs := some 100 } rfl
  have ha := denied_request_consumes_no_quota { monthly := some 3, minute := some 4 }
    rlHealthy PlanTier.Free 0 100
    { allowed := true, remaining := 996, limit := 1000, reset_at := 100,
      retry_after_secs := none } rfl
  refine ⟨hd.1 rfl, ?_, ?_⟩
  · have h := (ha.2 rfl).1
    simpa using h
  · have h := (ha.2 rfl).2
    simpa using h

/-- C5 counterexample: with the connection healthy but the monthly `GET`
failing, `check_and_increment` does not return an error — it treats the
counter as 0 (`unwrap_or(0)`) and allows the request with
`remaining = 999`, even though the stored counter (2000) is over the
Free-plan limit. -/
theorem counter_read_failure_fabricates_zero :
    (RateLimiter.check_and_increment { monthly := some 2000, minute := some 0 }
        { connect := false, monthlyRead := true, minuteRead := false, pipe := false }
        PlanTier.Free 0 100).1 =
      Except.ok { allowed := true, remaining := 999, limit := 1000, reset_at := 100,
                  retry_after_secs := none } := by
  rfl

/-- C5 (amended): failure to obtain the Redis connection propagates as an
error, and so does a failure of the atomic increment pipeline on a call
that passed both ceilings (a call denied first is still reported as
Denied); but a failed counter `GET` is not an error — the counter is
treated as 0 for that call. -/
theorem rate_limiter_dependency_failure (st : RedisState) (f : RedisFaults)
    (plan : PlanTier) (now nms : Int) :
    (f.connect = true →
      (RateLimiter.check_and_increment st f plan now nms).1 = Except.error ()) ∧
    (f.connect = false → f.monthlyRead = true →
      (RateLimiter.check_and_increment st f plan now nms).1 =
        (RateLimiter.check_and_increment { st with monthly := some 0 }
          { f with monthlyRead := false } plan now nms).1) ∧
    (f.connect = false → f.minuteRead = true →
      (RateLimiter.check_and_increment st f plan now nms).1 =
        (RateLimiter.check_and_increment { st with minute := some 0 }
          { f with minuteRead := false } plan now nms).1) ∧
    (f.connect = false → f.pipe = true →
      ((RateLimiter.check_and_increment st f plan now nms).1 = Except.error () ∨
       ∃ res, (RateLimiter.check_and_increment st f plan now nms).1 = Except.ok res ∧
         res.allowed = false)) := by
  refine ⟨fun hc => by simp [RateLimiter.check_and_increment, hc], ?_, ?_, ?_⟩
  · intro hc hm
    simp only [RateLimiter.check_and_increment, hc, hm, redisGet, Except.toOption,
      Option.getD, Bool.false_eq_true, if_false, if_true]
    repeat
      first
        | rfl
        | split
  · intro hc hm
    simp only [RateLimiter.check_and_increment, hc, hm, redisGet, Except.toOption,
      Option.getD, Bool.false_eq_true, if_false, if_true]
    repeat
      first
        | rfl
        | split
  · intro hc hp
    by_cases h2 : ((redisGet f.monthlyRead st.monthly).toOption).getD 0 ≥ plan.request_limit
    · right
      exact ⟨{ allowed := false, remaining := 0, limit := plan.request_limit,
               reset_at := nms, retry_after_secs := some (nms - now) },
        by simp [RateLimiter.check_and_increment, hc, if_pos h2], rfl⟩
    · by_cases h3 : ((redisGet f.minuteRead st.minute).toOption).getD 0 ≥ BURST_LIMIT
      · right
        exact ⟨{ allowed := false
                 remaining := plan.request_limit -
                   ((redisGet f.monthlyRead st.monthly).toOption).getD 0
                 limit := plan.request_limit
                 reset_at := now + (60 - Int.tmod now 60)
                 retry_after_secs := some (60 - Int.tmod now 60) },
          by simp [RateLimiter.check_and_increment, hc, if_neg h2, if_pos h3], rfl⟩
      · left
        simp [RateLimiter.check_and_increment, hc, if_neg h2, if_neg h3, hp]

/-- Witness for C5's amended failure modes at concrete states. -/
theorem rate_limiter_dependency_failure_witness :
    (RateLimiter.check_and_increment { monthly := some 3, minute := some 0 }
        { connect := true, monthlyRead := false, minuteRead := false, pipe := false }
        PlanTier.Free 0 100).1 = Except.error () ∧
    (RateLimiter.check_and_increment { monthly := some 3, minute := some 0 }
        { connect := false, monthlyRead := true, minuteRead := false, pipe := false }
        PlanTier.Free 0 100).1 =
      (RateLimiter.check_and_increment { monthly := some 0, minute := some 0 }
        rlHealthy PlanTier.Free 0 100).1 ∧
    ((RateLimiter.check_and_increment { monthly := some 3, minute := some 0 }
        { connect := false, monthlyRead := false, minuteRead := false, pipe := true }
        PlanTier.Free 0 100).1 = Except.error () ∨
     ∃ res, (RateLimiter.check_and_increment { monthly := some 3, minute := some 0 }
        { connect := false, monthlyRead := false, minuteRead := false, pipe := true }
        PlanTier.Free 0 100).1 = Except.ok res ∧ res.allowed = false) := by
  have h := rate_limiter_dependency_failure { monthly := some 3, minute := some 0 }
    { connect := true, monthlyRead := false, minuteRead := false, pipe := false }
    PlanTier.Free 0 100
  have h2 := rate_limiter_dependency_failure { monthly := some 3, minute := some 0 }
    { connect := false, monthlyRead := true, minuteRead := false, pipe := false }
    PlanTier.Free 0 100
  have h3 := rate_limiter_dependency_failure { monthly := some 3, minute := some 0 }
    { connect := false, monthlyRead := false, minuteRead := false, pipe := true }
    PlanTier.Free 0 100
  exact ⟨h.1 rfl, h2.2.1 rfl rfl, h3.2.2.2 rfl rfl⟩
